import Mathlib

/-!
Verification of the Open-LLM-VTuber companion-character core: the Live2D
parameter resolver, the gaze/tilt compositor, the autonomous movement
scheduler and the renderer facade, embedded shallowly from
`src/lib/cubism/app/index.ts`, `src/lib/cubism/app/CubismRenderer.ts` and
`src/features/broadcast/types.ts`.  JavaScript numbers are embedded as `ℚ`
(or `ℝ` where `Math.sqrt` appears); stateful methods become explicit
state-passing functions; parameter writes on the Cubism core become an
emitted list of write commands.
-/

namespace VTuberSpec

/-! ## Parameter resolver (`findParamByKeywords` / `setupParameterIds`)

`src/lib/cubism/app/index.ts` lines 331-396.  A declared model parameter is
a (name, index) pair; the resolver normalizes each name by lowercasing and
deleting `_` and `-`, then scans the declaration list in order. -/

/-- `leadMatch needle hay` : does `needle` occur at the head of `hay`? -/
def leadMatch : List Char → List Char → Bool
  | [], _ => true
  | _ :: _, [] => false
  | a :: as, b :: bs => a == b && leadMatch as bs

/-- `subMatch needle hay` : JavaScript `hay.includes(needle)` — `needle`
occurs contiguously somewhere in `hay`. -/
def subMatch : List Char → List Char → Bool
  | needle, [] => needle.isEmpty
  | needle, c :: t => leadMatch needle (c :: t) || subMatch needle t

/-- `param.name.toLowerCase().replace(/[_-]/g, '')` from
`findParamByKeywords` (index.ts line 379). -/
def normalizeName (s : String) : List Char :=
  (s.toList.map Char.toLower).filter (fun c => !(c == '_' || c == '-'))

/-- `kw.toLowerCase()` applied to a keyword before the `includes` test. -/
def kwChars (kw : String) : List Char :=
  kw.toList.map Char.toLower

/-- One entry of `getAllParameterNames()` (index.ts lines 350-363): the
declared parameter name together with its index in the model. -/
structure ParamEntry where
  name : String
  index : Int
deriving DecidableEq

/-- `findParamByKeywords` (index.ts lines 372-396): first declared
parameter whose normalized name contains every `mustInclude` keyword, at
least one `shouldInclude` keyword and no `mustExclude` keyword; `-1` when
none matches. -/
def findParamByKeywords :
    List ParamEntry → List String → List String → List String → Int
  | [], _, _, _ => -1
  | p :: rest, mustInclude, shouldInclude, mustExclude =>
    let nameLower := normalizeName p.name
    if !(mustInclude.all fun kw => subMatch (kwChars kw) nameLower) then
      findParamByKeywords rest mustInclude shouldInclude mustExclude
    else if !(shouldInclude.any fun kw => subMatch (kwChars kw) nameLower) then
      findParamByKeywords rest mustInclude shouldInclude mustExclude
    else if mustExclude.any fun kw => subMatch (kwChars kw) nameLower then
      findParamByKeywords rest mustInclude shouldInclude mustExclude
    else
      p.index

/-- The six resolved semantic-channel indices (`_idParamAngleX` … fields of
the model class). -/
structure ResolvedParamIds where
  idParamAngleX : Int
  idParamAngleY : Int
  idParamAngleZ : Int
  idParamBodyAngleX : Int
  idParamEyeBallX : Int
  idParamEyeBallY : Int
deriving DecidableEq

/-- `setupParameterIds` (index.ts lines 331-345) applied to the declared
parameter list. -/
def setupParameterIds (allParams : List ParamEntry) : ResolvedParamIds where
  idParamAngleX := findParamByKeywords allParams ["angle"] ["x"] ["y", "z"]
  idParamAngleY := findParamByKeywords allParams ["angle"] ["y"] ["x", "z"]
  idParamAngleZ := findParamByKeywords allParams ["angle"] ["z"] ["x", "y"]
  idParamBodyAngleX := findParamByKeywords allParams ["body", "angle"] ["x"] []
  idParamEyeBallX := findParamByKeywords allParams ["eye", "ball"] ["x"] ["y"]
  idParamEyeBallY := findParamByKeywords allParams ["eye", "ball"] ["y"] ["x"]

/-- The declared parameter list of end-to-end scenario A. -/
def scenarioAParams : List ParamEntry :=
  [⟨"ParamAngleX", 0⟩, ⟨"ParamAngleY", 1⟩, ⟨"ParamEyeBallX", 2⟩, ⟨"ParamEyeBallY", 3⟩]

/-! ## Gaze/tilt compositor state (`CubismModel` transient scalars)

Fields `_lookAtX` … `_currentTiltY` of the model class (index.ts lines
58-69), all initialized to `0` / `false`. -/

/-- The transient gaze/tilt scalars of a model instance. -/
structure TiltState where
  lookAtX : ℚ
  lookAtY : ℚ
  movementTiltX : ℚ
  movementTiltY : ℚ
  movementIntensity : ℚ
  isMoving : Bool
  currentTiltX : ℚ
  currentTiltY : ℚ
deriving DecidableEq

/-- Field initializers of a freshly constructed model instance. -/
def initialTiltState : TiltState :=
  ⟨0, 0, 0, 0, 0, false, 0, 0⟩

/-- `setLookAt` (index.ts lines 664-668): clamp both coordinates into
`[-1, 1]` and store them. -/
def setLookAt (s : TiltState) (x y : ℚ) : TiltState :=
  { s with lookAtX := max (-1) (min 1 x), lookAtY := max (-1) (min 1 y) }

/-- `setMovementTilt` (index.ts lines 677-686): clamp the direction into
`[-1, 1]` per axis and the intensity into `[0, 1]`, store the moving
flag. -/
def setMovementTilt (s : TiltState) (x y intensity : ℚ) (isMoving : Bool) :
    TiltState :=
  { s with
    movementTiltX := max (-1) (min 1 x)
    movementTiltY := max (-1) (min 1 y)
    movementIntensity := max 0 (min 1 intensity)
    isMoving := isMoving }

/-- A parameter write issued against the Cubism core:
`addParameterValueByIndex index value weight` (additive blend) or
`setParameterValueByIndex index value` (absolute set). -/
inductive ParamWrite where
  | add (index : Int) (value weight : ℚ)
  | set (index : Int) (value : ℚ)
deriving DecidableEq

/-- `applyLookAt` (index.ts lines 693-739), run once per `update` frame on
a ready instance (its `!this._model` early-return cannot fire then):
choose the raw target, lerp the current tilt toward it, and emit the
parameter writes for every resolved channel. -/
def applyLookAt (ids : ResolvedParamIds) (s : TiltState) :
    TiltState × List ParamWrite :=
  let target : ℚ × ℚ :=
    if s.isMoving ∧ s.movementIntensity > 0 then
      (s.movementTiltX * s.movementIntensity,
       s.movementTiltY * s.movementIntensity * 0.5)
    else
      (s.lookAtX, s.lookAtY)
  let lerpSpeed : ℚ := if s.isMoving then 0.15 else 0.03
  let x := s.currentTiltX + (target.1 - s.currentTiltX) * lerpSpeed
  let y := s.currentTiltY + (target.2 - s.currentTiltY) * lerpSpeed
  let writes : List ParamWrite :=
    (if ids.idParamAngleX ≥ 0 then [.add ids.idParamAngleX (x * 30) 0.5] else []) ++
    (if ids.idParamAngleY ≥ 0 then [.add ids.idParamAngleY (y * 30) 0.5] else []) ++
    (if ids.idParamEyeBallX ≥ 0 then [.set ids.idParamEyeBallX x] else []) ++
    (if ids.idParamEyeBallY ≥ 0 then [.set ids.idParamEyeBallY y] else []) ++
    (if ids.idParamBodyAngleX ≥ 0 then [.add ids.idParamBodyAngleX (x * 10) 0.5] else [])
  ({ s with currentTiltX := x, currentTiltY := y }, writes)

/-! ### The compositor as the spec (section 4.4) words it

A second, spec-side description of the same algorithm, used only to state
the refinement claim that the code realizes the spec's contract. -/

/-- The five output channels of the compositor, in the order the spec
lists them. -/
inductive GazeChannel where
  | faceAngleX
  | faceAngleY
  | eyeBallX
  | eyeBallY
  | bodyAngleX
deriving DecidableEq

/-- Spec: raw-target choice — movement lean (Y damped to half) while
moving with positive intensity, pointer-tracking target otherwise. -/
def specRawTarget (s : TiltState) : ℚ × ℚ :=
  if s.isMoving ∧ s.movementIntensity > 0 then
    (s.movementTiltX * s.movementIntensity,
     s.movementTiltY * s.movementIntensity * 0.5)
  else
    (s.lookAtX, s.lookAtY)

/-- Spec: asymmetric exponential smoothing factor. -/
def specSmoothingFactor (s : TiltState) : ℚ :=
  if s.isMoving then 0.15 else 0.03

/-- Spec: `current += (target - current) * factor`. -/
def specSmoothStep (current target factor : ℚ) : ℚ :=
  current + (target - current) * factor

/-- Spec: the write each channel performs on the smoothed pair `(x, y)` —
face angles ×30 additive with weight 0.5, eyeballs absolute, body angle
×10 additive with weight 0.5 — `none` for an unresolved channel (silently
skipped). -/
def specChannelWrite (ids : ResolvedParamIds) (x y : ℚ) :
    GazeChannel → Option ParamWrite
  | .faceAngleX =>
    if ids.idParamAngleX ≥ 0 then some (.add ids.idParamAngleX (x * 30) 0.5) else none
  | .faceAngleY =>
    if ids.idParamAngleY ≥ 0 then some (.add ids.idParamAngleY (y * 30) 0.5) else none
  | .eyeBallX =>
    if ids.idParamEyeBallX ≥ 0 then some (.set ids.idParamEyeBallX x) else none
  | .eyeBallY =>
    if ids.idParamEyeBallY ≥ 0 then some (.set ids.idParamEyeBallY y) else none
  | .bodyAngleX =>
    if ids.idParamBodyAngleX ≥ 0 then some (.add ids.idParamBodyAngleX (x * 10) 0.5) else none

/-- The channel order of section 4.4's output list. -/
def gazeChannels : List GazeChannel :=
  [.faceAngleX, .faceAngleY, .eyeBallX, .eyeBallY, .bodyAngleX]

/-- The compositor as section 4.4 describes it: smooth toward the chosen
raw target, then perform every resolved channel's write. -/
def applyLookAtSpec (ids : ResolvedParamIds) (s : TiltState) :
    TiltState × List ParamWrite :=
  let t := specRawTarget s
  let f := specSmoothingFactor s
  let x := specSmoothStep s.currentTiltX t.1 f
  let y := specSmoothStep s.currentTiltY t.2 f
  ({ s with currentTiltX := x, currentTiltY := y },
   gazeChannels.filterMap (specChannelWrite ids x y))

/-! ### Iterating the compositor and interleaving the setters -/

/-- `n` frames of the compositor from state `s` (only the state part of
`applyLookAt` feeds the next frame). -/
def gazeIter (ids : ResolvedParamIds) (s : TiltState) : ℕ → TiltState
  | 0 => s
  | n + 1 => (applyLookAt ids (gazeIter ids s n)).1

/-- Fresh instance whose pointer-gaze target has been set to `(1, 1)`: the
start state of the gaze-blend-continuity scenario. -/
def s0Gaze : TiltState :=
  ⟨1, 1, 0, 0, 0, false, 0, 0⟩

/-- One externally observable operation on the model's gaze scalars. -/
inductive ModelOp where
  | lookAtOp (x y : ℚ)
  | tiltOp (x y intensity : ℚ) (isMoving : Bool)
  | updateOp
deriving DecidableEq

/-- Run one operation against the tilt state (`updateOp` performs the
per-frame `applyLookAt` state change). -/
def stepOp (ids : ResolvedParamIds) (s : TiltState) : ModelOp → TiltState
  | .lookAtOp x y => setLookAt s x y
  | .tiltOp x y i mv => setMovementTilt s x y i mv
  | .updateOp => (applyLookAt ids s).1

/-- Run an interleaved operation sequence from a fresh instance. -/
def runOps (ids : ResolvedParamIds) (ops : List ModelOp) : TiltState :=
  ops.foldl (stepOp ids) initialTiltState

/-! ## The model facade behind the renderer (`CubismModel` observables)

The remaining externally observable fields of the model class that the
renderer facade touches: the last lip-sync value (index.ts line 646), the
lip-sync parameter ids of the model setting, the loaded expression map
keys (`_expressions`), the currently forced expression (the effect of
`_expressionManager.startMotionPriority`, index.ts lines 561-569) and the
model matrix center that `setCenterPosition` stores. -/

/-- A parameter write addressed by id string
(`addParameterValueById id value weight`, index.ts line 654). -/
inductive NamedParamWrite where
  | add (id : String) (value weight : ℚ)
deriving DecidableEq

/-- Observable state of one loaded model instance. -/
structure CModelState where
  tilt : TiltState
  lastLipSyncValue : ℚ
  lipSyncParams : List String
  expressions : List String
  activeExpression : Option String
  centerX : ℚ
  centerY : ℚ
deriving DecidableEq

/-- Model-level `setLipSyncValue` (index.ts lines 645-657): record the
value, then add it (weight 0.8) to every lip-sync parameter. -/
def modelSetLipSyncValue (m : CModelState) (value : ℚ) :
    CModelState × List NamedParamWrite :=
  ({ m with lastLipSyncValue := value },
   m.lipSyncParams.map fun pid => .add pid value 0.8)

/-- Model-level `setExpression` (index.ts lines 561-569): force-start the
expression when its id is loaded, warn-and-ignore otherwise. -/
def modelSetExpression (m : CModelState) (expressionId : String) : CModelState :=
  if expressionId ∈ m.expressions then
    { m with activeExpression := some expressionId }
  else
    m

/-! ## The renderer facade (`CubismRenderer.ts`)

`_model` starts `null` (line 15) and is reset to `null` by `dispose`
(lines 136-138); every convenience method guards on it. -/

/-- Observable state of the renderer. -/
structure RendererState where
  model : Option CModelState
  scale : ℚ
  minScale : ℚ
  maxScale : ℚ
  zoomEnabled : Bool
deriving DecidableEq

/-- Renderer field initializers (CubismRenderer.ts lines 15-28). -/
def initialRendererState : RendererState :=
  ⟨none, 1, 0.5, 3, false⟩

/-- Renderer `setLookAt` (CubismRenderer.ts lines 290-294). -/
def rendererSetLookAt (r : RendererState) (x y : ℚ) : RendererState :=
  match r.model with
  | some m => { r with model := some { m with tilt := setLookAt m.tilt x y } }
  | none => r

/-- Renderer `setMovementTilt` (CubismRenderer.ts lines 303-307). -/
def rendererSetMovementTilt (r : RendererState) (x y intensity : ℚ)
    (isMoving : Bool) : RendererState :=
  match r.model with
  | some m =>
    { r with model := some { m with tilt := setMovementTilt m.tilt x y intensity isMoving } }
  | none => r

/-- Renderer `setLipSyncValue` (CubismRenderer.ts lines 279-283); also
returns the parameter writes the delegated call issues. -/
def rendererSetLipSyncValue (r : RendererState) (value : ℚ) :
    RendererState × List NamedParamWrite :=
  match r.model with
  | some m =>
    let p := modelSetLipSyncValue m value
    ({ r with model := some p.1 }, p.2)
  | none => (r, [])

/-- Renderer `setExpression` (CubismRenderer.ts lines 257-261). -/
def rendererSetExpression (r : RendererState) (expressionId : String) :
    RendererState :=
  match r.model with
  | some m => { r with model := some (modelSetExpression m expressionId) }
  | none => r

/-- Renderer `setModelPosition` (CubismRenderer.ts lines 423-430):
delegate to the model matrix's `setCenterPosition`. -/
def rendererSetModelPosition (r : RendererState) (x y : ℚ) : RendererState :=
  match r.model with
  | some m => { r with model := some { m with centerX := x, centerY := y } }
  | none => r

/-- Renderer `setScale` (CubismRenderer.ts lines 342-345): clamp into
`[_minScale, _maxScale]` and store. -/
def rendererSetScale (r : RendererState) (scale : ℚ) : RendererState :=
  { r with scale := max r.minScale (min r.maxScale scale) }

/-! ## Per-frame `update` stage order (index.ts lines 497-534)

The frame update is a fixed sequence of stage calls, four of them guarded
on the presence of an optional evaluator; we embed the order as the trace
of stages one call performs. -/

/-- The stages of one `update(deltaTime)` call. -/
inductive UpdateStage where
  | loadParams
  | motionUpdate
  | expressionUpdate
  | saveParams
  | eyeBlink
  | breath
  | lookAt
  | physics
  | pose
  | modelUpdate
deriving DecidableEq

/-- The trace of stages one `update` call performs, given whether the core
model is present and which optional evaluators exist (`_eyeBlink`,
`_breath`, `_physics`, `_pose` non-null). -/
def updateTrace (hasModel hasEyeBlink hasBreath hasPhysics hasPose : Bool) :
    List UpdateStage :=
  if !hasModel then []
  else
    [.loadParams, .motionUpdate, .expressionUpdate, .saveParams] ++
    (if hasEyeBlink then [.eyeBlink] else []) ++
    (if hasBreath then [.breath] else []) ++
    [.lookAt] ++
    (if hasPhysics then [.physics] else []) ++
    (if hasPose then [.pose] else []) ++
    [.modelUpdate]

/-- The full stage order of spec section 4.3. -/
def stageOrder : List UpdateStage :=
  [.loadParams, .motionUpdate, .expressionUpdate, .saveParams, .eyeBlink,
   .breath, .lookAt, .physics, .pose, .modelUpdate]

/-- Which stages are present: the four optional evaluators are guarded by
their flags, everything else always runs. -/
def stagePresent (hasEyeBlink hasBreath hasPhysics hasPose : Bool) :
    UpdateStage → Bool
  | .eyeBlink => hasEyeBlink
  | .breath => hasBreath
  | .physics => hasPhysics
  | .pose => hasPose
  | _ => true

/-! ## Breathing configuration (`setupBreath`, index.ts lines 262-313) -/

/-- The Live2D default parameter ids referenced by `setupBreath` (members
of the SDK's `CubismDefaultParameterId` table). -/
inductive DefaultParamId where
  | ParamAngleX
  | ParamAngleY
  | ParamAngleZ
  | ParamBodyAngleX
  | ParamBreath
deriving DecidableEq

/-- One `BreathParameterData` record: parameter id, offset, peak
amplitude, cycle period and weight. -/
structure BreathParameterData where
  parameterId : DefaultParamId
  offset : ℚ
  peak : ℚ
  cycle : ℚ
  weight : ℚ
deriving DecidableEq

/-- `setupBreath` (index.ts lines 262-313): the breath parameter vector is
built from constants only — it takes no input from the loaded asset. -/
def setupBreath : List BreathParameterData :=
  [⟨.ParamAngleX, 0.0, 15.0, 6.5345, 0.5⟩,
   ⟨.ParamAngleY, 0.0, 8.0, 3.5345, 0.5⟩,
   ⟨.ParamAngleZ, 0.0, 10.0, 5.5345, 0.5⟩,
   ⟨.ParamBodyAngleX, 0.0, 4.0, 15.5345, 0.5⟩,
   ⟨.ParamBreath, 0.5, 0.5, 3.2345, 0.5⟩]

/-- The five breathing channels in the spec's vocabulary (section 3,
"face angle X/Y/Z, body angle X, and a generic breath channel"). -/
inductive BreathChannel where
  | faceAngleX
  | faceAngleY
  | faceAngleZ
  | bodyAngleX
  | breathGeneric
deriving DecidableEq

/-- The model parameter each spec channel drives. -/
def breathChannelParam : BreathChannel → DefaultParamId
  | .faceAngleX => .ParamAngleX
  | .faceAngleY => .ParamAngleY
  | .faceAngleZ => .ParamAngleZ
  | .bodyAngleX => .ParamBodyAngleX
  | .breathGeneric => .ParamBreath

/-- The spec's breathing constant table:
channel, (offset, amplitude, period, weight). -/
def specBreathTable : List (BreathChannel × ℚ × ℚ × ℚ × ℚ) :=
  [(.faceAngleX, 0, 15.0, 6.5345, 0.5),
   (.faceAngleY, 0, 8.0, 3.5345, 0.5),
   (.faceAngleZ, 0, 10.0, 5.5345, 0.5),
   (.bodyAngleX, 0, 4.0, 15.5345, 0.5),
   (.breathGeneric, 0.5, 0.5, 3.2345, 0.5)]

/-! ## Autonomous movement scheduler
(`useCharacterMovement`, `src/features/broadcast/types.ts`)

`Math.random()`-derived offsets become explicit arguments `offX`/`offY`
(the source draws `(Math.random() - 0.5) * 2 * 350` per used axis);
positions and distances are real numbers because the source takes a
square root. -/

/-- The screen-derived movement rectangle. -/
structure MoveBounds where
  minX : ℝ
  maxX : ℝ
  minY : ℝ
  maxY : ℝ

/-- `calculateBounds` (types.ts lines 262-280) for a window of the given
inner size: 50 px padding plus the 300×400 character size. -/
noncomputable def calculateBounds (innerWidth innerHeight : ℝ) : MoveBounds :=
  ⟨50, innerWidth - 300 - 50, 50, innerHeight - 400 - 50⟩

/-- The configured movement mode. -/
inductive MovementMode where
  | disabled
  | free
  | horizontal
  | vertical
deriving DecidableEq

/-- `generateRandomTarget` (types.ts lines 337-378): offset the current
position along the mode's axes, then clamp into the safe sub-rectangle
that insets the bounds by 10 % per axis. -/
noncomputable def generateRandomTarget (bounds : MoveBounds) (current : ℝ × ℝ)
    (mode : MovementMode) (offX offY : ℝ) : ℝ × ℝ :=
  let paddingX := (bounds.maxX - bounds.minX) * 0.1
  let paddingY := (bounds.maxY - bounds.minY) * 0.1
  let safeMinX := bounds.minX + paddingX
  let safeMaxX := bounds.maxX - paddingX
  let safeMinY := bounds.minY + paddingY
  let safeMaxY := bounds.maxY - paddingY
  let raw : ℝ × ℝ :=
    match mode with
    | .free => (current.1 + offX, current.2 + offY)
    | .horizontal => (current.1 + offX, current.2)
    | .vertical => (current.1, current.2 + offY)
    | .disabled => (current.1, current.2)
  (max safeMinX (min safeMaxX raw.1), max safeMinY (min safeMaxY raw.2))

/-- The record written to the movement store by `updateMovementState`. -/
structure MovementUpdate where
  directionX : ℝ
  directionY : ℝ
  isMoving : Bool
  intensity : ℝ
  transitionDuration : ℝ

/-- The CSS-transition duration in seconds (types.ts lines 408-416):
`transitionMs = distance / (60 * max(0.1, speed)) * 1000`, clamped into
`[1500 ms, 10000 ms]`, divided by 1000. -/
noncomputable def transitionSeconds (distance speed : ℝ) : ℝ :=
  max 1500 (min 10000 (distance / (60 * max 0.1 speed) * 1000)) / 1000

/-- `moveToNextPosition` (types.ts lines 385-444): pick a target, trigger
a movement-state update when the travel distance exceeds 10 px, and store
the new character position.  Returns the movement-state update (if any)
and the stored position. -/
noncomputable def moveToNextPosition (bounds : MoveBounds) (current : ℝ × ℝ)
    (mode : MovementMode) (speed : ℝ) (isPaused isResting : Bool)
    (offX offY : ℝ) : Option MovementUpdate × (ℝ × ℝ) :=
  if isPaused ∨ mode = MovementMode.disabled ∨ isResting then
    (none, current)
  else
    let target := generateRandomTarget bounds current mode offX offY
    let deltaX := target.1 - current.1
    let deltaY := target.2 - current.2
    let distance := Real.sqrt (deltaX * deltaX + deltaY * deltaY)
    if distance > 10 then
      let intensity := 0.5 + min speed 2.0 * 0.2
      (some
        { directionX := deltaX / distance
          directionY := deltaY / distance
          isMoving := true
          intensity := min intensity 1
          transitionDuration := transitionSeconds distance speed },
       target)
    else
      (none, target)

/-! ## Helper lemmas -/

/-- Matching the three-character needle of the keyword `eye` somewhere in a
name forces the single character `y` to occur in that name as well. -/
lemma subMatch_y_of_eye : ∀ l : List Char,
    subMatch ['e', 'y', 'e'] l = true → subMatch ['y'] l = true := by
  intro l
  induction l with
  | nil => simp [subMatch]
  | cons c t ih =>
    simp only [subMatch, Bool.or_eq_true]
    rintro (h | h)
    · cases t with
      | nil => simp [leadMatch] at h
      | cons b t2 =>
        simp only [leadMatch, Bool.and_eq_true, beq_iff_eq] at h
        refine Or.inr ?_
        simp only [subMatch, leadMatch, Bool.or_eq_true, Bool.and_eq_true, beq_iff_eq]
        exact Or.inl ⟨h.2.1, trivial⟩
    · exact Or.inr (ih h)

/-- The eye-ball-X rule can never fire: any normalized name containing
`eye` (and `ball`) also contains `y`, which is in the rule's excluded set,
so every declared parameter is rejected. -/
lemma findEyeBallX_unresolved (params : List ParamEntry) :
    findParamByKeywords params ["eye", "ball"] ["x"] ["y"] = -1 := by
  induction params with
  | nil => rfl
  | cons p rest ih =>
    by_cases hMust :
        (["eye", "ball"].all fun kw => subMatch (kwChars kw) (normalizeName p.name)) = true
    · have heye : subMatch (kwChars "eye") (normalizeName p.name) = true := by
        simp only [List.all_cons, List.all_nil, Bool.and_eq_true] at hMust
        exact hMust.1
      have hy : subMatch (kwChars "y") (normalizeName p.name) = true := by
        have h1 : kwChars "eye" = ['e', 'y', 'e'] := by decide
        have h2 : kwChars "y" = ['y'] := by decide
        rw [h2]
        exact subMatch_y_of_eye _ (h1 ▸ heye)
      simp [findParamByKeywords, hMust, hy, ih]
    · simp [findParamByKeywords, hMust, ih]

/-- Clamping into a nonempty closed interval lands in the interval. -/
lemma clamp_mem {lo hi v : ℚ} (h : lo ≤ hi) :
    lo ≤ max lo (min hi v) ∧ max lo (min hi v) ≤ hi :=
  ⟨le_max_left _ _, max_le h (min_le_left _ _)⟩

/-- One lerp step with a factor in `[0, 1]` between values in `[-1, 1]`
stays in `[-1, 1]`. -/
lemma lerp_mem {c t f : ℚ} (hc1 : -1 ≤ c) (hc2 : c ≤ 1) (ht1 : -1 ≤ t) (ht2 : t ≤ 1)
    (hf1 : 0 ≤ f) (hf2 : f ≤ 1) :
    -1 ≤ c + (t - c) * f ∧ c + (t - c) * f ≤ 1 := by
  constructor <;> nlinarith

/-- Unfolding of the scheduler with both pause flags clear and a
non-disabled mode. -/
lemma moveToNextPosition_eq (bounds : MoveBounds) (current : ℝ × ℝ)
    (mode : MovementMode) (speed offX offY : ℝ)
    (hmode : mode ≠ MovementMode.disabled) :
    moveToNextPosition bounds current mode speed false false offX offY =
      (let target := generateRandomTarget bounds current mode offX offY
       let deltaX := target.1 - current.1
       let deltaY := target.2 - current.2
       let distance := Real.sqrt (deltaX * deltaX + deltaY * deltaY)
       if distance > 10 then
         (some ⟨deltaX / distance, deltaY / distance, true,
                min (0.5 + min speed 2.0 * 0.2) 1, transitionSeconds distance speed⟩,
          target)
       else (none, target)) := by
  simp [moveToNextPosition, hmode]

/-- In horizontal mode the clamped target keeps the Y coordinate of a
current position that already lies inside the safe Y band. -/
lemma generateRandomTarget_horizontal_snd (bounds : MoveBounds) (current : ℝ × ℝ)
    (offX offY : ℝ)
    (hy1 : bounds.minY + (bounds.maxY - bounds.minY) * 0.1 ≤ current.2)
    (hy2 : current.2 ≤ bounds.maxY - (bounds.maxY - bounds.minY) * 0.1) :
    (generateRandomTarget bounds current .horizontal offX offY).2 = current.2 := by
  simp only [generateRandomTarget]
  rw [min_eq_right hy2, max_eq_right hy1]

/-- Closed form of the repeated compositor smoothing step from the
gaze-blend scenario's start state: both tilt axes equal
`1 - 0.97 ^ n` after `n` frames. -/
lemma gazeIter_closedForm (ids : ResolvedParamIds) (n : ℕ) :
    gazeIter ids s0Gaze n =
      ⟨1, 1, 0, 0, 0, false, 1 - (97 / 100 : ℚ) ^ n, 1 - (97 / 100 : ℚ) ^ n⟩ := by
  induction n with
  | zero => norm_num [gazeIter, s0Gaze]
  | succ n ih =>
    rw [gazeIter, ih]
    simp only [applyLookAt, Bool.false_eq_true, false_and, if_false, if_neg]
    norm_num
    ring

/-- Range invariant on the model's gaze scalars maintained by the setters
and the per-frame compositor. -/
def TiltInv (s : TiltState) : Prop :=
  -1 ≤ s.lookAtX ∧ s.lookAtX ≤ 1 ∧ -1 ≤ s.lookAtY ∧ s.lookAtY ≤ 1 ∧
  -1 ≤ s.movementTiltX ∧ s.movementTiltX ≤ 1 ∧
  -1 ≤ s.movementTiltY ∧ s.movementTiltY ≤ 1 ∧
  0 ≤ s.movementIntensity ∧ s.movementIntensity ≤ 1 ∧
  -1 ≤ s.currentTiltX ∧ s.currentTiltX ≤ 1 ∧
  -1 ≤ s.currentTiltY ∧ s.currentTiltY ≤ 1

/-- The compositor's state change preserves the range invariant: every raw
target it can choose lies in `[-1, 1]` per axis, and the lerp step cannot
leave the interval spanned by the current value and the target. -/
lemma applyLookAt_inv (ids : ResolvedParamIds) {s : TiltState} (h : TiltInv s) :
    TiltInv (applyLookAt ids s).1 := by
  obtain ⟨h1, h2, h3, h4, h5, h6, h7, h8, h9, h10, h11, h12, h13, h14⟩ := h
  have hfact : ∀ tX tY : ℚ, -1 ≤ tX → tX ≤ 1 → -1 ≤ tY → tY ≤ 1 →
      ∀ f : ℚ, 0 ≤ f → f ≤ 1 →
      TiltInv { s with
        currentTiltX := s.currentTiltX + (tX - s.currentTiltX) * f,
        currentTiltY := s.currentTiltY + (tY - s.currentTiltY) * f } := by
    intro tX tY htX1 htX2 htY1 htY2 f hf1 hf2
    exact ⟨h1, h2, h3, h4, h5, h6, h7, h8, h9, h10,
      (lerp_mem h11 h12 htX1 htX2 hf1 hf2).1, (lerp_mem h11 h12 htX1 htX2 hf1 hf2).2,
      (lerp_mem h13 h14 htY1 htY2 hf1 hf2).1, (lerp_mem h13 h14 htY1 htY2 hf1 hf2).2⟩
  simp only [applyLookAt]
  by_cases hmov : (s.isMoving = true) ∧ s.movementIntensity > 0
  · rw [if_pos hmov]
    have hx1 : -1 ≤ s.movementTiltX * s.movementIntensity := by nlinarith
    have hx2 : s.movementTiltX * s.movementIntensity ≤ 1 := by nlinarith
    have hy1 : -1 ≤ s.movementTiltY * s.movementIntensity * 0.5 := by nlinarith
    have hy2 : s.movementTiltY * s.movementIntensity * 0.5 ≤ 1 := by nlinarith
    by_cases hm : s.isMoving = true
    · rw [if_pos hm]
      exact hfact _ _ hx1 hx2 hy1 hy2 0.15 (by norm_num) (by norm_num)
    · rw [if_neg hm]
      exact hfact _ _ hx1 hx2 hy1 hy2 0.03 (by norm_num) (by norm_num)
  · rw [if_neg hmov]
    by_cases hm : s.isMoving = true
    · rw [if_pos hm]
      exact hfact _ _ h1 h2 h3 h4 0.15 (by norm_num) (by norm_num)
    · rw [if_neg hm]
      exact hfact _ _ h1 h2 h3 h4 0.03 (by norm_num) (by norm_num)

/-- Every observable operation preserves the range invariant. -/
lemma stepOp_inv (ids : ResolvedParamIds) {s : TiltState} (op : ModelOp)
    (h : TiltInv s) : TiltInv (stepOp ids s op) := by
  obtain ⟨h1, h2, h3, h4, h5, h6, h7, h8, h9, h10, h11, h12, h13, h14⟩ := h
  cases op with
  | lookAtOp x y =>
    have hc := @clamp_mem (-1) 1 x (by norm_num)
    have hd := @clamp_mem (-1) 1 y (by norm_num)
    exact ⟨hc.1, hc.2, hd.1, hd.2, h5, h6, h7, h8, h9, h10, h11, h12, h13, h14⟩
  | tiltOp x y intensity mv =>
    have hc := @clamp_mem (-1) 1 x (by norm_num)
    have hd := @clamp_mem (-1) 1 y (by norm_num)
    have he := @clamp_mem 0 1 intensity (by norm_num)
    exact ⟨h1, h2, h3, h4, hc.1, hc.2, hd.1, hd.2, he.1, he.2, h11, h12, h13, h14⟩
  | updateOp =>
    exact applyLookAt_inv ids ⟨h1, h2, h3, h4, h5, h6, h7, h8, h9, h10, h11, h12, h13, h14⟩

/-- The invariant propagates through any operation sequence. -/
lemma foldl_inv (ids : ResolvedParamIds) :
    ∀ (ops : List ModelOp) (s : TiltState), TiltInv s →
      TiltInv (ops.foldl (stepOp ids) s)
  | [], _, h => h
  | op :: rest, s, h => foldl_inv ids rest _ (stepOp_inv ids op h)

/-! ## Claim theorems -/

/-- Claim C1: on the declared list
`["ParamAngleX", "ParamAngleY", "ParamEyeBallX", "ParamEyeBallY"]` the
resolver returns valid indices for angleX (0) and angleY (1) and the
sentinel for angleZ and bodyAngleX — but contrary to the claim it also
returns the sentinel `-1` for eyeBallX (only eyeBallY resolves, to 3):
the eye-ball-X rule excludes any name containing `y`, and the `y` inside
`eye` matches, so (second conjunct) the eye-ball-X channel is unresolvable
for every possible parameter list. -/
theorem C1_eyeBallX_resolver_bug :
    setupParameterIds scenarioAParams =
      ⟨0, 1, -1, -1, -1, 3⟩ ∧
    ∀ params : List ParamEntry,
      findParamByKeywords params ["eye", "ball"] ["x"] ["y"] = -1 :=
  ⟨by decide, findEyeBallX_unresolved⟩

/-- Claim C2, counterexample to the claim as stated: with the bounds of an
800×600 window, current position `(0, 0)` and movement mode `horizontal`,
the scheduler triggers a move whose direction has `y ≠ 0` — clamping the
target into the safe sub-rectangle lifts its Y coordinate to the band's
lower edge, so the destination delta has a Y component. -/
theorem C2_counterexample :
    ∃ upd : MovementUpdate,
      (moveToNextPosition (calculateBounds 800 600) (0, 0) .horizontal 1 false false
          200 0).1 = some upd ∧
      upd.directionY ≠ 0 := by
  have hb : calculateBounds 800 600 = ⟨50, 450, 50, 150⟩ := by
    simp only [calculateBounds]; norm_num
  have htarget :
      generateRandomTarget (calculateBounds 800 600) ((0:ℝ), (0:ℝ)) .horizontal 200 0
        = (200, 60) := by
    rw [hb]
    simp only [generateRandomTarget]
    norm_num [max_def, min_def]
  have hsqrt_pos : (0:ℝ) < Real.sqrt 43600 := Real.sqrt_pos.mpr (by norm_num)
  have hgt : Real.sqrt 43600 > 10 := (Real.lt_sqrt (by norm_num)).mpr (by norm_num)
  rw [moveToNextPosition_eq _ _ _ _ _ _ (by simp)]
  simp only [htarget]
  norm_num
  rw [if_pos hgt]
  exact ⟨_, rfl, div_ne_zero (by norm_num) (ne_of_gt hsqrt_pos)⟩

/-- Claim C2, amended: whenever the current Y position already lies inside
the safe Y band (as every position the scheduler itself has stored does),
every move triggered in horizontal mode writes a direction with `y = 0`
and `x ∈ [-1, 1]`. -/
theorem C2_horizontal_direction_amended (bounds : MoveBounds) (current : ℝ × ℝ)
    (speed offX offY : ℝ) (upd : MovementUpdate)
    (hy1 : bounds.minY + (bounds.maxY - bounds.minY) * 0.1 ≤ current.2)
    (hy2 : current.2 ≤ bounds.maxY - (bounds.maxY - bounds.minY) * 0.1)
    (h : (moveToNextPosition bounds current .horizontal speed false false offX offY).1
        = some upd) :
    upd.directionY = 0 ∧ -1 ≤ upd.directionX ∧ upd.directionX ≤ 1 := by
  rw [moveToNextPosition_eq bounds current .horizontal speed offX offY (by simp)] at h
  simp only at h
  rw [generateRandomTarget_horizontal_snd bounds current offX offY hy1 hy2] at h
  set dX := (generateRandomTarget bounds current .horizontal offX offY).1 - current.1
    with hdX
  simp only [sub_self] at h
  by_cases hgt : Real.sqrt (dX * dX + 0 * 0) > 10
  · rw [if_pos hgt] at h
    simp only [Option.some.injEq] at h
    subst h
    have habs : Real.sqrt (dX * dX + 0 * 0) = |dX| := by
      rw [mul_zero, add_zero, ← abs_mul_self dX, abs_mul,
        Real.sqrt_mul_self (abs_nonneg dX)]
    have hpos : (0:ℝ) < |dX| := lt_trans (by norm_num) (habs ▸ hgt)
    refine ⟨zero_div _, ?_, ?_⟩
    · simp only [habs]
      rw [neg_le, ← neg_div, div_le_one hpos]
      exact neg_le_abs dX
    · simp only [habs]
      rw [div_le_one hpos]
      exact le_abs_self dX
  · rw [if_neg hgt] at h
    simp at h

/-- Witness for C2 (amended): a concrete triggered horizontal move — from
`(100, 100)` in an 800×600 window with offset 200 — whose direction the
theorem shows to be `(1, 0)`-shaped: `y = 0`, `x ∈ [-1, 1]`. -/
theorem C2_horizontal_direction_witness :
    ∃ upd : MovementUpdate,
      (moveToNextPosition (calculateBounds 800 600) (100, 100) .horizontal 1 false false
          200 0).1 = some upd ∧
      (upd.directionY = 0 ∧ -1 ≤ upd.directionX ∧ upd.directionX ≤ 1) := by
  have hb : calculateBounds 800 600 = ⟨50, 450, 50, 150⟩ := by
    simp only [calculateBounds]; norm_num
  have htarget :
      generateRandomTarget (calculateBounds 800 600) ((100:ℝ), (100:ℝ)) .horizontal 200 0
        = (300, 100) := by
    rw [hb]
    simp only [generateRandomTarget]
    norm_num [max_def, min_def]
  have hsq : Real.sqrt 40000 = 200 := by
    rw [show (40000:ℝ) = 200 ^ 2 by norm_num, Real.sqrt_sq (by norm_num)]
  have heq :
      (moveToNextPosition (calculateBounds 800 600) (100, 100) .horizontal 1 false false
          200 0).1
        = some ⟨1, 0, true, 0.7, transitionSeconds 200 1⟩ := by
    rw [moveToNextPosition_eq _ _ _ _ _ _ (by simp)]
    simp only [htarget]
    norm_num [hsq]
  exact ⟨_, heq,
    C2_horizontal_direction_amended (calculateBounds 800 600) (100, 100) 1 200 0 _
      (by rw [hb]; norm_num) (by rw [hb]; norm_num) heq⟩

/-- Claim C3: on every frame and every resolved-id table, the compositor
of the code (`applyLookAt`) coincides with the spec's description — raw
target choice with half-strength vertical movement gaze, asymmetric
0.15/0.03 smoothing via `current += (target - current) * factor`, and the
×30-additive / absolute / ×10-additive channel writes with unresolved
channels skipped. -/
theorem C3_applyLookAt_refines_spec (ids : ResolvedParamIds) (s : TiltState) :
    applyLookAt ids s = applyLookAtSpec ids s := by
  unfold applyLookAt applyLookAtSpec specRawTarget specSmoothingFactor specSmoothStep
  refine Prod.ext rfl ?_
  simp only [gazeChannels, List.filterMap_cons, List.filterMap_nil, specChannelWrite]
  by_cases ha : ids.idParamAngleX ≥ 0 <;>
  by_cases hb : ids.idParamAngleY ≥ 0 <;>
  by_cases hc : ids.idParamEyeBallX ≥ 0 <;>
  by_cases hd : ids.idParamEyeBallY ≥ 0 <;>
  by_cases he : ids.idParamBodyAngleX ≥ 0 <;>
  simp [ha, hb, hc, hd, he]

/-- Claim C4: for arbitrary (also out-of-range) inputs, `setLookAt` stores
both gaze coordinates in `[-1, 1]`, `setMovementTilt` stores both tilt
components in `[-1, 1]` and the intensity in `[0, 1]`, and the renderer's
`setScale` stores a scale in `[minScale, maxScale]` (the scale range being
nonempty). -/
theorem C4_setter_clamp_ranges (s : TiltState) (x y intensity : ℚ) (mv : Bool)
    (r : RendererState) (scale : ℚ) (hr : r.minScale ≤ r.maxScale) :
    (-1 ≤ (setLookAt s x y).lookAtX ∧ (setLookAt s x y).lookAtX ≤ 1 ∧
      -1 ≤ (setLookAt s x y).lookAtY ∧ (setLookAt s x y).lookAtY ≤ 1) ∧
    (-1 ≤ (setMovementTilt s x y intensity mv).movementTiltX ∧
      (setMovementTilt s x y intensity mv).movementTiltX ≤ 1 ∧
      -1 ≤ (setMovementTilt s x y intensity mv).movementTiltY ∧
      (setMovementTilt s x y intensity mv).movementTiltY ≤ 1 ∧
      0 ≤ (setMovementTilt s x y intensity mv).movementIntensity ∧
      (setMovementTilt s x y intensity mv).movementIntensity ≤ 1) ∧
    (r.minScale ≤ (rendererSetScale r scale).scale ∧
      (rendererSetScale r scale).scale ≤ r.maxScale) := by
  have h11 : (-1:ℚ) ≤ 1 := by norm_num
  have h01 : (0:ℚ) ≤ 1 := by norm_num
  refine ⟨⟨?_, ?_, ?_, ?_⟩, ⟨?_, ?_, ?_, ?_, ?_, ?_⟩, ⟨?_, ?_⟩⟩ <;>
    simp only [setLookAt, setMovementTilt, rendererSetScale]
  · exact (clamp_mem h11).1
  · exact (clamp_mem h11).2
  · exact (clamp_mem h11).1
  · exact (clamp_mem h11).2
  · exact (clamp_mem h11).1
  · exact (clamp_mem h11).2
  · exact (clamp_mem h11).1
  · exact (clamp_mem h11).2
  · exact (clamp_mem h01).1
  · exact (clamp_mem h01).2
  · exact (clamp_mem hr).1
  · exact (clamp_mem hr).2

/-- Witness for C4: the claim's own example — `setLookAt(5, -5)` from a
fresh state stores exactly `(1, -1)` — together with the theorem applied
to those out-of-range inputs and the default renderer scale range. -/
theorem C4_setter_clamp_ranges_witness :
    (setLookAt initialTiltState 5 (-5)).lookAtX = 1 ∧
    (setLookAt initialTiltState 5 (-5)).lookAtY = -1 ∧
    initialRendererState.minScale ≤ initialRendererState.maxScale ∧
    ((-1 ≤ (setLookAt initialTiltState 5 (-5)).lookAtX ∧
        (setLookAt initialTiltState 5 (-5)).lookAtX ≤ 1 ∧
        -1 ≤ (setLookAt initialTiltState 5 (-5)).lookAtY ∧
        (setLookAt initialTiltState 5 (-5)).lookAtY ≤ 1) ∧
      (-1 ≤ (setMovementTilt initialTiltState 5 (-5) 2 true).movementTiltX ∧
        (setMovementTilt initialTiltState 5 (-5) 2 true).movementTiltX ≤ 1 ∧
        -1 ≤ (setMovementTilt initialTiltState 5 (-5) 2 true).movementTiltY ∧
        (setMovementTilt initialTiltState 5 (-5) 2 true).movementTiltY ≤ 1 ∧
        0 ≤ (setMovementTilt initialTiltState 5 (-5) 2 true).movementIntensity ∧
        (setMovementTilt initialTiltState 5 (-5) 2 true).movementIntensity ≤ 1) ∧
      (initialRendererState.minScale ≤ (rendererSetScale initialRendererState 10).scale ∧
        (rendererSetScale initialRendererState 10).scale ≤ initialRendererState.maxScale)) :=
  ⟨by decide, by decide, by norm_num [initialRendererState],
    C4_setter_clamp_ranges initialTiltState 5 (-5) 2 true initialRendererState 10
      (by norm_num [initialRendererState])⟩

/-- Claim C5: for every travel distance ≥ 0 and configured speed in
`[0.1, 2.0]`, the transition duration the scheduler computes equals
`clamp(distance / (60 * max(0.1, speed)), 1.5, 10)` seconds and hence lies
in `[1.5, 10]`. -/
theorem C5_transition_duration_bounds (distance speed : ℝ) (hd : 0 ≤ distance)
    (hs1 : 0.1 ≤ speed) (hs2 : speed ≤ 2.0) :
    transitionSeconds distance speed
        = max 1.5 (min 10 (distance / (60 * max 0.1 speed))) ∧
      1.5 ≤ transitionSeconds distance speed ∧
      transitionSeconds distance speed ≤ 10 := by
  have h1000 : (0:ℝ) ≤ 1000 := by norm_num
  have heq : transitionSeconds distance speed
      = max 1.5 (min 10 (distance / (60 * max 0.1 speed))) := by
    unfold transitionSeconds
    rw [← max_div_div_right h1000, ← min_div_div_right h1000,
      mul_div_cancel_right₀ _ (by norm_num : (1000:ℝ) ≠ 0)]
    norm_num
  refine ⟨heq, ?_, ?_⟩
  · rw [heq]; exact le_max_left _ _
  · rw [heq]
    exact max_le (by norm_num) (min_le_left _ _)

/-- Witness for C5: distance 600 px at speed 1 — the theorem's clamp
formula and both bounds hold there (the duration is exactly 10 s). -/
theorem C5_transition_duration_witness :
    (0:ℝ) ≤ 600 ∧ (0.1:ℝ) ≤ 1 ∧ (1:ℝ) ≤ 2.0 ∧
    (transitionSeconds 600 1
        = max 1.5 (min 10 (600 / (60 * max 0.1 1))) ∧
      1.5 ≤ transitionSeconds 600 1 ∧
      transitionSeconds 600 1 ≤ 10) :=
  ⟨by norm_num, by norm_num, by norm_num,
    C5_transition_duration_bounds 600 1 (by norm_num) (by norm_num) (by norm_num)⟩

/-- Claim C6: iterating the compositor from `current = (0, 0)` with
`isMoving = false` toward the fixed pointer-gaze target `(1, 1)` is
monotonically non-decreasing per axis, never exceeds 1, and converges to
`(1, 1)`. -/
theorem C6_gaze_monotone_convergence (ids : ResolvedParamIds) (n : ℕ) :
    ((gazeIter ids s0Gaze n).currentTiltX ≤ (gazeIter ids s0Gaze (n + 1)).currentTiltX ∧
      (gazeIter ids s0Gaze n).currentTiltY ≤ (gazeIter ids s0Gaze (n + 1)).currentTiltY) ∧
    ((gazeIter ids s0Gaze n).currentTiltX ≤ 1 ∧
      (gazeIter ids s0Gaze n).currentTiltY ≤ 1) ∧
    Filter.Tendsto (fun m => (gazeIter ids s0Gaze m).currentTiltX)
      Filter.atTop (nhds 1) ∧
    Filter.Tendsto (fun m => (gazeIter ids s0Gaze m).currentTiltY)
      Filter.atTop (nhds 1) := by
  have hq0 : (0:ℚ) ≤ 97 / 100 := by norm_num
  have hq1 : (97 / 100 : ℚ) ≤ 1 := by norm_num
  have hmono : (1:ℚ) - (97 / 100) ^ n ≤ 1 - (97 / 100) ^ (n + 1) := by
    have h2 : (97 / 100 : ℚ) ^ (n + 1) ≤ (97 / 100) ^ n := by
      simpa using pow_le_pow_of_le_one hq0 hq1 (Nat.le_succ n)
    linarith
  have hbound : (1:ℚ) - (97 / 100) ^ n ≤ 1 := by
    have : (0:ℚ) ≤ (97 / 100) ^ n := pow_nonneg hq0 n
    linarith
  have htend : Filter.Tendsto (fun m : ℕ => (1:ℚ) - (97 / 100) ^ m)
      Filter.atTop (nhds 1) := by
    have h := tendsto_pow_atTop_nhds_zero_of_lt_one hq0 (by norm_num : (97/100:ℚ) < 1)
    simpa using Filter.Tendsto.const_sub 1 h
  refine ⟨⟨?_, ?_⟩, ⟨?_, ?_⟩, ?_, ?_⟩ <;>
    simp only [gazeIter_closedForm]
  · exact hmono
  · exact hmono
  · exact hbound
  · exact hbound
  · exact htend
  · exact htend

/-- Claim C7: for a ready model instance, one `update` call performs
exactly the spec's ten stages in the spec's fixed order, restricted to the
present evaluators — the trace equals the canonical stage order filtered
by presence, for every combination of optional evaluators. -/
theorem C7_update_stage_order :
    ∀ hasEyeBlink hasBreath hasPhysics hasPose : Bool,
      updateTrace true hasEyeBlink hasBreath hasPhysics hasPose
        = stageOrder.filter (stagePresent hasEyeBlink hasBreath hasPhysics hasPose) := by
  decide

/-- Claim C8: the breathing evaluator is configured, independently of the
loaded asset, with exactly the five channels face angle X/Y/Z, body angle
X and the generic breath channel, carrying the constants
(0, 15, 6.5345, 0.5), (0, 8, 3.5345, 0.5), (0, 10, 5.5345, 0.5),
(0, 4, 15.5345, 0.5) and (0.5, 0.5, 3.2345, 0.5). -/
theorem C8_breath_configuration :
    setupBreath = specBreathTable.map
      (fun t => ⟨breathChannelParam t.1, t.2.1, t.2.2.1, t.2.2.2.1, t.2.2.2.2⟩) := by
  norm_num [setupBreath, specBreathTable, breathChannelParam]

/-- Claim C9: with no model loaded (`_model = null`, the state before any
load and after dispose), the renderer's `setLookAt`, `setMovementTilt`,
`setLipSyncValue`, `setExpression` and `setModelPosition` are total
no-ops: they throw nothing (they are total functions of the state) and
return the renderer state unchanged, with no parameter writes issued. -/
theorem C9_renderer_null_guards (r : RendererState)
    (x y value intensity px py : ℚ) (mv : Bool) (expressionId : String)
    (h : r.model = none) :
    rendererSetLookAt r x y = r ∧
    rendererSetMovementTilt r x y intensity mv = r ∧
    rendererSetLipSyncValue r value = (r, []) ∧
    rendererSetExpression r expressionId = r ∧
    rendererSetModelPosition r px py = r := by
  refine ⟨?_, ?_, ?_, ?_, ?_⟩ <;>
    simp [rendererSetLookAt, rendererSetMovementTilt, rendererSetLipSyncValue,
      rendererSetExpression, rendererSetModelPosition, h]

/-- Witness for C9: the freshly constructed renderer (whose model is
`none`) with concrete control inputs. -/
theorem C9_renderer_null_guards_witness :
    initialRendererState.model = none ∧
    (rendererSetLookAt initialRendererState 0.3 (-0.2) = initialRendererState ∧
      rendererSetMovementTilt initialRendererState 0.3 (-0.2) 1 true
        = initialRendererState ∧
      rendererSetLipSyncValue initialRendererState 0.5 = (initialRendererState, []) ∧
      rendererSetExpression initialRendererState "smile" = initialRendererState ∧
      rendererSetModelPosition initialRendererState 0.1 0.2 = initialRendererState) :=
  ⟨rfl, C9_renderer_null_guards initialRendererState 0.3 (-0.2) 0.5 1 0.1 0.2 true
    "smile" rfl⟩

/-- Claim C10: from a freshly constructed instance, after any interleaved
sequence of `setLookAt`, `setMovementTilt` and `update` calls the smoothed
scalars `currentTiltX`/`currentTiltY` remain in `[-1, 1]`, so the
face-angle write (`value * 30`) stays within ±30 and the body-angle write
(`value * 10`) within ±10. -/
theorem C10_tilt_invariant (ids : ResolvedParamIds) (ops : List ModelOp) :
    (-1 ≤ (runOps ids ops).currentTiltX ∧ (runOps ids ops).currentTiltX ≤ 1 ∧
      -1 ≤ (runOps ids ops).currentTiltY ∧ (runOps ids ops).currentTiltY ≤ 1) ∧
    (-30 ≤ (runOps ids ops).currentTiltX * 30 ∧
      (runOps ids ops).currentTiltX * 30 ≤ 30 ∧
      -30 ≤ (runOps ids ops).currentTiltY * 30 ∧
      (runOps ids ops).currentTiltY * 30 ≤ 30) ∧
    (-10 ≤ (runOps ids ops).currentTiltX * 10 ∧
      (runOps ids ops).currentTiltX * 10 ≤ 10) := by
  have hinit : TiltInv initialTiltState := by
    norm_num [TiltInv, initialTiltState]
  have h := foldl_inv ids ops initialTiltState hinit
  obtain ⟨_, _, _, _, _, _, _, _, _, _, h11, h12, h13, h14⟩ := h
  refine ⟨⟨h11, h12, h13, h14⟩, ⟨?_, ?_, ?_, ?_⟩, ⟨?_, ?_⟩⟩ <;>
    unfold runOps <;> linarith

end VTuberSpec
